import Mathlib

/-
Shallow embedding of the `secret-feedback` repository's two contracts:

  * `src/contracts/EncryptedTasks.sol`  (contract `EncryptedTasks`)
  * `src/unnamed/part_001`              (contract `EncryptedFeedback`)

Addresses are modelled as `Nat` with `0` playing the role of `address(0)`
(the null sentinel).  Encrypted chunk handles (`euint32`) are opaque to the
contracts, so they are modelled as bare `Nat` handles; the external FHE ACL
calls (`FHE.allow`, `FHE.allowThis`) have no observable effect on contract
storage and are not part of the state.  All `uint256` counters are modelled
as `Nat`; Solidity 0.8 checked subtraction (revert on underflow) is modelled
explicitly, while the increments appearing in the contracts cannot overflow
`uint256` on any reachable state and are modelled as plain `Nat` addition.
`uint8` casts are modelled as `% 256`.  Every `require` / revert is an
`Except.error` carrying the source's revert string; `block.timestamp` is an
explicit `now` argument.
-/

namespace SecretFeedback

/-- Pointwise map update, modelling a Solidity `mapping` write. -/
def upd {α β : Type} [DecidableEq α] (m : α → β) (a : α) (v : β) : α → β :=
  fun x => if x = a then v else m x

-- ============ EncryptedTasks ============

inductive TaskStatus where
  | Todo
  | InProgress
  | Completed
deriving DecidableEq, Repr

inductive TaskPriority where
  | Low
  | Medium
  | High
deriving DecidableEq, Repr

structure Task where
  id : Nat
  owner : Nat
  encryptedDescription : List Nat
  title : String
  status : TaskStatus
  priority : TaskPriority
  dueDate : Nat
  category : String
  tags : List String
  createdAt : Nat
  updatedAt : Nat
  completedAt : Nat
  chunkCount : Nat
  isArchived : Bool
  isFavorite : Bool
  color : String
deriving DecidableEq, Repr

structure TaskMetadata where
  id : Nat
  title : String
  status : TaskStatus
  priority : TaskPriority
  dueDate : Nat
  category : String
  tags : List String
  createdAt : Nat
  updatedAt : Nat
  completedAt : Nat
  chunkCount : Nat
  isArchived : Bool
  isFavorite : Bool
  color : String
  owner : Nat
deriving DecidableEq, Repr

structure UserStats where
  totalTasks : Nat
  todoTasks : Nat
  inProgressTasks : Nat
  completedTasks : Nat
  archivedTasks : Nat
  favoriteTasks : Nat
  overdueTasks : Nat
  totalStorage : Nat
deriving DecidableEq, Repr

structure SharedTaskReference where
  owner : Nat
  taskId : Nat
deriving DecidableEq, Repr

structure TasksState where
  userTasks : Nat → List Task
  userStats : Nat → UserStats
  tasksByCategory : Nat → String → List Nat
  tasksByTag : Nat → String → List Nat
  sharedWithMe : Nat → List SharedTaskReference

def MAX_CHUNKS_PER_TASK : Nat := 128

def MAX_TASKS_PER_USER : Nat := 1000

/-- Solidity default value of the `Task` struct (all fields zero). -/
def defaultTask : Task :=
  { id := 0, owner := 0, encryptedDescription := [], title := "",
    status := .Todo, priority := .Low, dueDate := 0, category := "",
    tags := [], createdAt := 0, updatedAt := 0, completedAt := 0,
    chunkCount := 0, isArchived := false, isFavorite := false, color := "" }

/-- Solidity default value of the `TaskMetadata` struct (all fields zero). -/
def defaultTaskMetadata : TaskMetadata :=
  { id := 0, title := "", status := .Todo, priority := .Low, dueDate := 0,
    category := "", tags := [], createdAt := 0, updatedAt := 0,
    completedAt := 0, chunkCount := 0, isArchived := false,
    isFavorite := false, color := "", owner := 0 }

def emptyUserStats : UserStats :=
  { totalTasks := 0, todoTasks := 0, inProgressTasks := 0,
    completedTasks := 0, archivedTasks := 0, favoriteTasks := 0,
    overdueTasks := 0, totalStorage := 0 }

def emptyTasksState : TasksState :=
  { userTasks := fun _ => [], userStats := fun _ => emptyUserStats,
    tasksByCategory := fun _ _ => [], tasksByTag := fun _ _ => [],
    sharedWithMe := fun _ => [] }

/-- `EncryptedTasks.createTask`.  Modifier `withinLimits` then the body;
returns the new state and the assigned `taskId`. -/
def createTask (s : TasksState) (sender : Nat) (encryptedChunks : List Nat)
    (title : String) (priority : TaskPriority) (dueDate : Nat)
    (category : String) (tags : List String) (color : String) (now : Nat) :
    Except String (TasksState × Nat) :=
  if ¬ (0 < encryptedChunks.length) then .error "Empty task"
  else if ¬ (encryptedChunks.length ≤ MAX_CHUNKS_PER_TASK) then .error "Task too large"
  else if ¬ ((s.userStats sender).totalTasks < MAX_TASKS_PER_USER) then .error "Max tasks reached"
  else if title = "" then .error "Title required"
  else
    let taskId := (s.userTasks sender).length
    let task : Task :=
      { id := taskId, owner := sender, encryptedDescription := encryptedChunks,
        title := title, status := .Todo, priority := priority,
        dueDate := dueDate, category := category, tags := tags,
        createdAt := now, updatedAt := now, completedAt := 0,
        chunkCount := encryptedChunks.length % 256,
        isArchived := false, isFavorite := false, color := color }
    let stats := s.userStats sender
    let stats :=
      { stats with totalTasks := stats.totalTasks + 1,
                   todoTasks := stats.todoTasks + 1,
                   totalStorage := stats.totalStorage + encryptedChunks.length }
    let byCat :=
      if category = "" then s.tasksByCategory sender
      else upd (s.tasksByCategory sender) category
             (s.tasksByCategory sender category ++ [taskId])
    let byTag :=
      tags.foldl (fun m tg => upd m tg (m tg ++ [taskId])) (s.tasksByTag sender)
    .ok ({ s with
            userTasks := upd s.userTasks sender (s.userTasks sender ++ [task]),
            userStats := upd s.userStats sender stats,
            tasksByCategory := upd s.tasksByCategory sender byCat,
            tasksByTag := upd s.tasksByTag sender byTag }, taskId)

/-- `EncryptedTasks.updateTask`.  Note: the source neither checks the
deleted-owner sentinel nor touches the category/tag indices. -/
def updateTask (s : TasksState) (sender taskId : Nat) (encryptedChunks : List Nat)
    (title : String) (priority : TaskPriority) (dueDate : Nat)
    (category : String) (tags : List String) (color : String) (now : Nat) :
    Except String TasksState :=
  if ¬ (taskId < (s.userTasks sender).length) then .error "Task does not exist"
  else if ¬ (0 < encryptedChunks.length) then .error "Empty task"
  else if ¬ (encryptedChunks.length ≤ MAX_CHUNKS_PER_TASK) then .error "Task too large"
  else if title = "" then .error "Title required"
  else
    let task := (s.userTasks sender).getD taskId defaultTask
    let stats := s.userStats sender
    if ¬ (task.chunkCount ≤ stats.totalStorage) then .error "arithmetic underflow"
    else
      let stats :=
        { stats with totalStorage :=
            stats.totalStorage - task.chunkCount + encryptedChunks.length }
      let task :=
        { task with encryptedDescription := encryptedChunks, title := title,
                    priority := priority, dueDate := dueDate,
                    category := category, tags := tags, color := color,
                    chunkCount := encryptedChunks.length % 256,
                    updatedAt := now }
      .ok { s with
              userTasks := upd s.userTasks sender ((s.userTasks sender).set taskId task),
              userStats := upd s.userStats sender stats }

/-- Checked `x--` on the counter matching a task's status
(the `if`/`else if` chain of `deleteTask` and `updateTaskStatus`). -/
def decStatusCounter (stats : UserStats) : TaskStatus → Except String UserStats
  | .Todo =>
      if ¬ (1 ≤ stats.todoTasks) then .error "arithmetic underflow"
      else .ok { stats with todoTasks := stats.todoTasks - 1 }
  | .InProgress =>
      if ¬ (1 ≤ stats.inProgressTasks) then .error "arithmetic underflow"
      else .ok { stats with inProgressTasks := stats.inProgressTasks - 1 }
  | .Completed =>
      if ¬ (1 ≤ stats.completedTasks) then .error "arithmetic underflow"
      else .ok { stats with completedTasks := stats.completedTasks - 1 }

/-- `EncryptedTasks.deleteTask`.  Note: the source does not decrement
`totalTasks`, does not zero `chunkCount`, and does not reject an
already-deleted task. -/
def deleteTask (s : TasksState) (sender taskId : Nat) : Except String TasksState :=
  if ¬ (taskId < (s.userTasks sender).length) then .error "Task does not exist"
  else
    let task := (s.userTasks sender).getD taskId defaultTask
    let stats := s.userStats sender
    if ¬ (task.chunkCount ≤ stats.totalStorage) then .error "arithmetic underflow"
    else
      let stats := { stats with totalStorage := stats.totalStorage - task.chunkCount }
      match decStatusCounter stats task.status with
      | .error e => .error e
      | .ok stats =>
        let arch : Except String UserStats :=
          if task.isArchived then
            if ¬ (1 ≤ stats.archivedTasks) then .error "arithmetic underflow"
            else .ok { stats with archivedTasks := stats.archivedTasks - 1 }
          else .ok stats
        match arch with
        | .error e => .error e
        | .ok stats =>
          let fav : Except String UserStats :=
            if task.isFavorite then
              if ¬ (1 ≤ stats.favoriteTasks) then .error "arithmetic underflow"
              else .ok { stats with favoriteTasks := stats.favoriteTasks - 1 }
            else .ok stats
          match fav with
          | .error e => .error e
          | .ok stats =>
            let task := { task with encryptedDescription := [], owner := 0 }
            .ok { s with
                    userTasks := upd s.userTasks sender ((s.userTasks sender).set taskId task),
                    userStats := upd s.userStats sender stats }

/-- `EncryptedTasks.updateTaskStatus`. -/
def updateTaskStatus (s : TasksState) (sender taskId : Nat)
    (newStatus : TaskStatus) (now : Nat) : Except String TasksState :=
  if ¬ (taskId < (s.userTasks sender).length) then .error "Task does not exist"
  else
    let task := (s.userTasks sender).getD taskId defaultTask
    if task.owner = 0 then .error "Task deleted"
    else if task.status = newStatus then .ok s
    else
      match decStatusCounter (s.userStats sender) task.status with
      | .error e => .error e
      | .ok stats =>
        let (stats, task) :=
          match newStatus with
          | .Todo =>
              ({ stats with todoTasks := stats.todoTasks + 1 },
               { task with completedAt := 0 })
          | .InProgress =>
              ({ stats with inProgressTasks := stats.inProgressTasks + 1 },
               { task with completedAt := 0 })
          | .Completed =>
              ({ stats with completedTasks := stats.completedTasks + 1 },
               { task with completedAt := now })
        let task := { task with status := newStatus, updatedAt := now }
        .ok { s with
                userTasks := upd s.userTasks sender ((s.userTasks sender).set taskId task),
                userStats := upd s.userStats sender stats }

/-- `EncryptedTasks.updateTaskPriority`. -/
def updateTaskPriority (s : TasksState) (sender taskId : Nat)
    (newPriority : TaskPriority) (now : Nat) : Except String TasksState :=
  if ¬ (taskId < (s.userTasks sender).length) then .error "Task does not exist"
  else
    let task := (s.userTasks sender).getD taskId defaultTask
    if task.owner = 0 then .error "Task deleted"
    else if task.priority = newPriority then .ok s
    else
      let task := { task with priority := newPriority, updatedAt := now }
      .ok { s with
              userTasks := upd s.userTasks sender ((s.userTasks sender).set taskId task) }

/-- `EncryptedTasks.setArchived`. -/
def setArchived (s : TasksState) (sender taskId : Nat) (archived : Bool)
    (now : Nat) : Except String TasksState :=
  if ¬ (taskId < (s.userTasks sender).length) then .error "Task does not exist"
  else
    let task := (s.userTasks sender).getD taskId defaultTask
    if task.owner = 0 then .error "Task deleted"
    else if task.isArchived = archived then .ok s
    else
      let task := { task with isArchived := archived, updatedAt := now }
      let stats := s.userStats sender
      let newArch : Except String Nat :=
        if archived then .ok (stats.archivedTasks + 1)
        else if ¬ (1 ≤ stats.archivedTasks) then .error "arithmetic underflow"
        else .ok (stats.archivedTasks - 1)
      match newArch with
      | .error e => .error e
      | .ok n =>
        .ok { s with
                userTasks := upd s.userTasks sender ((s.userTasks sender).set taskId task),
                userStats := upd s.userStats sender { stats with archivedTasks := n } }

/-- `EncryptedTasks.setFavorite`. -/
def setFavorite (s : TasksState) (sender taskId : Nat) (favorite : Bool)
    (now : Nat) : Except String TasksState :=
  if ¬ (taskId < (s.userTasks sender).length) then .error "Task does not exist"
  else
    let task := (s.userTasks sender).getD taskId defaultTask
    if task.owner = 0 then .error "Task deleted"
    else if task.isFavorite = favorite then .ok s
    else
      let task := { task with isFavorite := favorite, updatedAt := now }
      let stats := s.userStats sender
      let newFav : Except String Nat :=
        if favorite then .ok (stats.favoriteTasks + 1)
        else if ¬ (1 ≤ stats.favoriteTasks) then .error "arithmetic underflow"
        else .ok (stats.favoriteTasks - 1)
      match newFav with
      | .error e => .error e
      | .ok n =>
        .ok { s with
                userTasks := upd s.userTasks sender ((s.userTasks sender).set taskId task),
                userStats := upd s.userStats sender { stats with favoriteTasks := n } }

/-- `EncryptedTasks.shareTask`.  The FHE `allow` calls have no storage
effect; the storage effect is the unconditional push onto the recipient's
`sharedWithMe` list. -/
def shareTask (s : TasksState) (sender taskId recipient : Nat) :
    Except String TasksState :=
  if ¬ (taskId < (s.userTasks sender).length) then .error "Task does not exist"
  else if recipient = 0 then .error "Invalid recipient"
  else if recipient = sender then .error "Cannot share with yourself"
  else
    let task := (s.userTasks sender).getD taskId defaultTask
    if task.owner = 0 then .error "Task deleted"
    else
      .ok { s with
              sharedWithMe := upd s.sharedWithMe recipient
                (s.sharedWithMe recipient ++ [⟨sender, taskId⟩]) }

/-- `EncryptedTasks.getSharedTasks`.  Solidity allocates the result array
with one default-initialised slot per reference and fills only the slots
whose task still has a live owner, so a deleted task's slot stays at the
all-zero `TaskMetadata`. -/
def getSharedTasks (s : TasksState) (sender : Nat) : List TaskMetadata :=
  (s.sharedWithMe sender).map (fun ref =>
    let task := (s.userTasks ref.owner).getD ref.taskId defaultTask
    if task.owner ≠ 0 then
      { id := ref.taskId, title := task.title, status := task.status,
        priority := task.priority, dueDate := task.dueDate,
        category := task.category, tags := task.tags,
        createdAt := task.createdAt, updatedAt := task.updatedAt,
        completedAt := task.completedAt, chunkCount := task.chunkCount,
        isArchived := task.isArchived, isFavorite := task.isFavorite,
        color := task.color, owner := ref.owner }
    else defaultTaskMetadata)

/-- `EncryptedTasks.getTasksByCategory`. -/
def getTasksByCategory (s : TasksState) (sender : Nat) (category : String) :
    List Nat :=
  s.tasksByCategory sender category

/-- `EncryptedTasks.getTasksByTag`. -/
def getTasksByTag (s : TasksState) (sender : Nat) (tag : String) : List Nat :=
  s.tasksByTag sender tag

/-- `EncryptedTasks.getMyStats`. -/
def getMyStats (s : TasksState) (sender : Nat) : UserStats :=
  s.userStats sender

/-- Number of live (non-sentinel-owned) records in an owner's sequence. -/
def liveCount (s : TasksState) (owner : Nat) : Nat :=
  ((s.userTasks owner).filter (fun t => t.owner != 0)).length

/-- Sum of `chunkCount` over an owner's live (non-sentinel-owned) records. -/
def liveChunkSum (s : TasksState) (owner : Nat) : Nat :=
  (((s.userTasks owner).filter (fun t => t.owner != 0)).map
    (fun t => t.chunkCount)).sum

-- ============ EncryptedFeedback ============

inductive Sentiment where
  | Positive
  | Neutral
  | Negative
deriving DecidableEq, Repr

inductive BoxCategory where
  | Team
  | Product
  | Event
  | Course
  | General
deriving DecidableEq, Repr

structure FeedbackBox where
  id : Nat
  owner : Nat
  title : String
  description : String
  category : BoxCategory
  isActive : Bool
  createdAt : Nat
  closedAt : Nat
  submissionCount : Nat
  allowRatings : Bool
  allowSentiment : Bool
deriving DecidableEq, Repr

structure Feedback where
  id : Nat
  boxId : Nat
  encryptedContent : List Nat
  rating : Nat
  sentiment : Sentiment
  submittedAt : Nat
  isRead : Bool
  chunkCount : Nat
deriving DecidableEq, Repr

structure BoxStats where
  totalSubmissions : Nat
  unreadCount : Nat
  avgRating : Nat
  positiveCount : Nat
  neutralCount : Nat
  negativeCount : Nat
deriving DecidableEq, Repr

structure FeedbackState where
  ownerBoxes : Nat → List FeedbackBox
  boxFeedback : Nat → Nat → Feedback
  feedbackCountPerBox : Nat → Nat
  boxOwners : Nat → Nat
  globalBoxCounter : Nat

def MAX_CHUNKS_PER_FEEDBACK : Nat := 128

def MAX_BOXES_PER_OWNER : Nat := 100

/-- Solidity default of the `Feedback` struct: all fields zero, and a zero
enum is its first member (`Sentiment.Positive`). -/
def defaultFeedback : Feedback :=
  { id := 0, boxId := 0, encryptedContent := [], rating := 0,
    sentiment := .Positive, submittedAt := 0, isRead := false, chunkCount := 0 }

def defaultFeedbackBox : FeedbackBox :=
  { id := 0, owner := 0, title := "", description := "", category := .Team,
    isActive := false, createdAt := 0, closedAt := 0, submissionCount := 0,
    allowRatings := false, allowSentiment := false }

def emptyFeedbackState : FeedbackState :=
  { ownerBoxes := fun _ => [], boxFeedback := fun _ _ => defaultFeedback,
    feedbackCountPerBox := fun _ => 0, boxOwners := fun _ => 0,
    globalBoxCounter := 0 }

/-- `EncryptedFeedback.createBox`. -/
def createBox (s : FeedbackState) (sender : Nat) (title description : String)
    (category : BoxCategory) (allowRatings allowSentiment : Bool) (now : Nat) :
    Except String (FeedbackState × Nat) :=
  if ¬ ((s.ownerBoxes sender).length < MAX_BOXES_PER_OWNER) then .error "Max boxes reached"
  else if title = "" then .error "Title required"
  else
    let globalBoxId := s.globalBoxCounter
    let newBox : FeedbackBox :=
      { id := globalBoxId, owner := sender, title := title,
        description := description, category := category, isActive := true,
        createdAt := now, closedAt := 0, submissionCount := 0,
        allowRatings := allowRatings, allowSentiment := allowSentiment }
    .ok ({ s with
            ownerBoxes := upd s.ownerBoxes sender (s.ownerBoxes sender ++ [newBox]),
            boxOwners := upd s.boxOwners globalBoxId sender,
            globalBoxCounter := s.globalBoxCounter + 1 }, globalBoxId)

/-- `EncryptedFeedback.closeBox` (`boxId` indexes the caller's array). -/
def closeBox (s : FeedbackState) (sender boxId : Nat) (now : Nat) :
    Except String FeedbackState :=
  if ¬ (boxId < (s.ownerBoxes sender).length) then .error "Box does not exist"
  else
    let box := (s.ownerBoxes sender).getD boxId defaultFeedbackBox
    if ¬ box.isActive then .error "Box already closed"
    else
      .ok { s with
              ownerBoxes := upd s.ownerBoxes sender
                ((s.ownerBoxes sender).set boxId
                  { box with isActive := false, closedAt := now }) }

/-- `EncryptedFeedback.reopenBox`. -/
def reopenBox (s : FeedbackState) (sender boxId : Nat) :
    Except String FeedbackState :=
  if ¬ (boxId < (s.ownerBoxes sender).length) then .error "Box does not exist"
  else
    let box := (s.ownerBoxes sender).getD boxId defaultFeedbackBox
    if box.isActive then .error "Box already active"
    else
      .ok { s with
              ownerBoxes := upd s.ownerBoxes sender
                ((s.ownerBoxes sender).set boxId
                  { box with isActive := true, closedAt := 0 }) }

/-- `EncryptedFeedback.updateBox`. -/
def updateBox (s : FeedbackState) (sender boxId : Nat)
    (title description : String) : Except String FeedbackState :=
  if ¬ (boxId < (s.ownerBoxes sender).length) then .error "Box does not exist"
  else
    let box := (s.ownerBoxes sender).getD boxId defaultFeedbackBox
    let box := if title ≠ "" then { box with title := title } else box
    let box := { box with description := description }
    .ok { s with
            ownerBoxes := upd s.ownerBoxes sender
              ((s.ownerBoxes sender).set boxId box) }

/-- `submissionCount++` on the storage reference returned by `_findBox`:
the first box in the owner's array whose `id` matches. -/
def bumpSubmission : List FeedbackBox → Nat → List FeedbackBox
  | [], _ => []
  | b :: bs, gid =>
      if b.id = gid then { b with submissionCount := b.submissionCount + 1 } :: bs
      else b :: bumpSubmission bs gid

/-- `EncryptedFeedback.submitFeedback`.  The `boxIsActive` modifier runs
first (owner lookup, linear scan for the box, activity check), then the
chunk-count bound, then the rating rules.  The anonymous submitter's own
address is never read by the source, so it is not a parameter. -/
def submitFeedback (s : FeedbackState) (globalBoxId : Nat)
    (encryptedChunks : List Nat) (rating : Nat) (sentiment : Sentiment)
    (now : Nat) : Except String (FeedbackState × Nat) :=
  let owner := s.boxOwners globalBoxId
  if owner = 0 then .error "Box does not exist"
  else
    match (s.ownerBoxes owner).find? (fun b => b.id == globalBoxId) with
    | none => .error "Box not found"
    | some box =>
      if ¬ box.isActive then .error "Box is closed"
      else if ¬ (0 < encryptedChunks.length ∧
                 encryptedChunks.length ≤ MAX_CHUNKS_PER_FEEDBACK) then
        .error "Invalid chunk count"
      else
        let store : Nat → Except String (FeedbackState × Nat) := fun rating =>
          let feedbackId := s.feedbackCountPerBox globalBoxId
          let newFeedback : Feedback :=
            { id := feedbackId, boxId := globalBoxId,
              encryptedContent := encryptedChunks, rating := rating,
              sentiment := sentiment, submittedAt := now, isRead := false,
              chunkCount := encryptedChunks.length % 256 }
          .ok ({ s with
                  feedbackCountPerBox := upd s.feedbackCountPerBox globalBoxId
                    (s.feedbackCountPerBox globalBoxId + 1),
                  boxFeedback := upd s.boxFeedback globalBoxId
                    (upd (s.boxFeedback globalBoxId) feedbackId newFeedback),
                  ownerBoxes := upd s.ownerBoxes owner
                    (bumpSubmission (s.ownerBoxes owner) globalBoxId) },
                feedbackId)
        if box.allowRatings then
          if ¬ (rating ≤ 5) then .error "Rating must be 0-5"
          else store rating
        else store 0

/-- `EncryptedFeedback.markAsRead`. -/
def markAsRead (s : FeedbackState) (sender globalBoxId feedbackId : Nat) :
    Except String FeedbackState :=
  if ¬ (s.boxOwners globalBoxId = sender) then .error "Not box owner"
  else
    let feedback := s.boxFeedback globalBoxId feedbackId
    if ¬ (0 < feedback.submittedAt) then .error "Feedback does not exist"
    else
      .ok { s with
              boxFeedback := upd s.boxFeedback globalBoxId
                (upd (s.boxFeedback globalBoxId) feedbackId
                  { feedback with isRead := true }) }

/-- `EncryptedFeedback.deleteFeedback`: clears the ciphertext, zeroes
`chunkCount` and `submittedAt` (deletion marker); other fields persist. -/
def deleteFeedback (s : FeedbackState) (sender globalBoxId feedbackId : Nat) :
    Except String FeedbackState :=
  if ¬ (s.boxOwners globalBoxId = sender) then .error "Not box owner"
  else
    let feedback := s.boxFeedback globalBoxId feedbackId
    if ¬ (0 < feedback.submittedAt) then .error "Feedback does not exist"
    else
      .ok { s with
              boxFeedback := upd s.boxFeedback globalBoxId
                (upd (s.boxFeedback globalBoxId) feedbackId
                  { feedback with encryptedContent := [], chunkCount := 0,
                                  submittedAt := 0 }) }

/-- One iteration of the `getBoxStats` accumulation loop, in source order:
skip deleted entries, bump `activeCount`, tally a positive rating, tally the
sentiment, tally unread. -/
structure StatsAcc where
  totalRating : Nat
  ratedCount : Nat
  positive : Nat
  neutral : Nat
  negative : Nat
  unread : Nat
  activeCount : Nat
deriving DecidableEq, Repr

def statsStep (fb : Feedback) (a : StatsAcc) : StatsAcc :=
  if 0 < fb.submittedAt then
    let a := { a with activeCount := a.activeCount + 1 }
    let a :=
      if 0 < fb.rating then
        { a with totalRating := a.totalRating + fb.rating,
                 ratedCount := a.ratedCount + 1 }
      else a
    let a :=
      match fb.sentiment with
      | .Positive => { a with positive := a.positive + 1 }
      | .Neutral => { a with neutral := a.neutral + 1 }
      | .Negative => { a with negative := a.negative + 1 }
    if fb.isRead then a else { a with unread := a.unread + 1 }
  else a

/-- The `for (i = 0; i < n; i++)` scan of `getBoxStats`. -/
def statsLoop (s : FeedbackState) (gid : Nat) : Nat → StatsAcc
  | 0 => ⟨0, 0, 0, 0, 0, 0, 0⟩
  | n + 1 => statsStep (s.boxFeedback gid n) (statsLoop s gid n)

/-- `EncryptedFeedback.getBoxStats`: full scan over the box's feedback
slots, then the fixed-point average. -/
def getBoxStats (s : FeedbackState) (globalBoxId : Nat) : BoxStats :=
  let a := statsLoop s globalBoxId (s.feedbackCountPerBox globalBoxId)
  let avgRating := if 0 < a.ratedCount then a.totalRating * 100 / a.ratedCount else 0
  { totalSubmissions := a.activeCount, unreadCount := a.unread,
    avgRating := avgRating, positiveCount := a.positive,
    neutralCount := a.neutral, negativeCount := a.negative }

/-- The box's stored feedback slots `0 .. count-1` that are not deleted
(`submittedAt > 0`), in slot order — the entries `getBoxStats` scans. -/
def liveFeedback (s : FeedbackState) (gid n : Nat) : List Feedback :=
  ((List.range n).map (s.boxFeedback gid)).filter (fun fb => 0 < fb.submittedAt)

/-- States of `EncryptedFeedback` reachable from a fresh deployment by the
contract's external mutating entry points. -/
inductive FReach : FeedbackState → Prop where
  | init : FReach emptyFeedbackState
  | cbox {s s' : FeedbackState} {sender : Nat} {title description : String}
      {category : BoxCategory} {ar asn : Bool} {now bid : Nat}
      (h : FReach s)
      (hop : createBox s sender title description category ar asn now = .ok (s', bid)) :
      FReach s'
  | cclose {s s' : FeedbackState} {sender boxId now : Nat}
      (h : FReach s) (hop : closeBox s sender boxId now = .ok s') : FReach s'
  | creopen {s s' : FeedbackState} {sender boxId : Nat}
      (h : FReach s) (hop : reopenBox s sender boxId = .ok s') : FReach s'
  | cupdate {s s' : FeedbackState} {sender boxId : Nat} {title description : String}
      (h : FReach s) (hop : updateBox s sender boxId title description = .ok s') :
      FReach s'
  | submit {s s' : FeedbackState} {gid : Nat} {chunks : List Nat}
      {rating : Nat} {sentiment : Sentiment} {now fid : Nat}
      (h : FReach s)
      (hop : submitFeedback s gid chunks rating sentiment now = .ok (s', fid)) :
      FReach s'
  | mread {s s' : FeedbackState} {sender gid fid : Nat}
      (h : FReach s) (hop : markAsRead s sender gid fid = .ok s') : FReach s'
  | fdelete {s s' : FeedbackState} {sender gid fid : Nat}
      (h : FReach s) (hop : deleteFeedback s sender gid fid = .ok s') : FReach s'

-- ============ Concrete scenario states ============

/-- Owner 1 creates a 1-chunk task, then deletes it. -/
def c1State : Except String TasksState := do
  let (s, _) ← createTask emptyTasksState 1 [7] "t" .Low 0 "" [] "" 1
  deleteTask s 1 0

/-- Owner 1 creates a 2-chunk task, archives and favourites it, then
deletes it. -/
def c2State : Except String TasksState := do
  let (s, _) ← createTask emptyTasksState 1 [1, 2] "a" .Low 0 "" [] "" 1
  let s ← setArchived s 1 0 true 1
  let s ← setFavorite s 1 0 true 1
  deleteTask s 1 0

/-- Owner 1 creates a 3-chunk task and a 4-chunk task, then deletes the
first. -/
def c3Deleted : Except String TasksState := do
  let (s, _) ← createTask emptyTasksState 1 [1, 2, 3] "a" .Low 0 "" [] "" 1
  let (s, _) ← createTask s 1 [4, 5, 6, 7] "b" .Low 0 "" [] "" 1
  deleteTask s 1 0

/-- ... and then calls `updateTask` on the deleted slot with 5 chunks. -/
def c3State : Except String TasksState :=
  c3Deleted.bind (fun s => updateTask s 1 0 [1, 2, 3, 4, 5] "a2" .Low 0 "" [] "" 2)

/-- Owner 1 creates a 1-chunk task and a 3-chunk task, then deletes the
first (so slot 0 is sentinel-owned and slot 1 is live). -/
def c4Base : Except String TasksState := do
  let (s, _) ← createTask emptyTasksState 1 [1] "a" .Low 0 "" [] "" 1
  let (s, _) ← createTask s 1 [1, 2, 3] "b" .Low 0 "" [] "" 1
  deleteTask s 1 0

/-- The task that the `i`-th iteration of `stepCreate` stores for owner 1. -/
def mkT (i : Nat) : Task :=
  { id := i, owner := 1, encryptedDescription := [7], title := "t",
    status := .Todo, priority := .Low, dueDate := 0, category := "",
    tags := [], createdAt := 1, updatedAt := 1, completedAt := 0,
    chunkCount := 1, isArchived := false, isFavorite := false, color := "" }

/-- Owner 1's stats after `n` one-chunk creations. -/
def statsN (n : Nat) : UserStats :=
  { totalTasks := n, todoTasks := n, inProgressTasks := 0,
    completedTasks := 0, archivedTasks := 0, favoriteTasks := 0,
    overdueTasks := 0, totalStorage := n }

/-- One successful `createTask` by owner 1 (identity if the call reverts). -/
def stepCreate (s : TasksState) : TasksState :=
  match createTask s 1 [7] "t" .Low 0 "" [] "" 1 with
  | .ok (s', _) => s'
  | .error _ => s

/-- The state after owner 1 performs `n` one-chunk creations. -/
def afterCreates : Nat → TasksState
  | 0 => emptyTasksState
  | n + 1 => stepCreate (afterCreates n)

/-- Owner 1 creates a task with category `"cat1"` and tag `"x"`. -/
def c6S1 : TasksState :=
  match createTask emptyTasksState 1 [1] "a" .Low 0 "cat1" ["x"] "" 1 with
  | .ok (s, _) => s
  | .error _ => emptyTasksState

/-- ... then updates it to category `"cat2"` and tag `"y"`. -/
def c6S2 : TasksState :=
  match updateTask c6S1 1 0 [1] "a" .Low 0 "cat2" ["y"] "" 2 with
  | .ok s => s
  | .error _ => c6S1

/-- Owner 1 creates a 1-chunk task. -/
def c7S1 : TasksState :=
  match createTask emptyTasksState 1 [1] "a" .Low 0 "" [] "" 1 with
  | .ok (s, _) => s
  | .error _ => emptyTasksState

/-- ... shares it with principal 2 once ... -/
def c7S2 : TasksState :=
  match shareTask c7S1 1 0 2 with
  | .ok s => s
  | .error _ => c7S1

/-- ... and then shares it with principal 2 a second time. -/
def c7S3 : TasksState :=
  match shareTask c7S2 1 0 2 with
  | .ok s => s
  | .error _ => c7S2

/-- After sharing with principal 2, owner 1 deletes the shared task. -/
def c8S : TasksState :=
  match deleteTask c7S2 1 0 with
  | .ok s => s
  | .error _ => c7S2

/-- Owner 1 creates feedback box 0 with `allowRatings = true`. -/
def c9S0 : FeedbackState :=
  match createBox emptyFeedbackState 1 "B" "" .General true true 1 with
  | .ok (s, _) => s
  | .error _ => emptyFeedbackState

/-- ... receives feedback rated 4, sentiment Positive ... -/
def c9S1 : FeedbackState :=
  match submitFeedback c9S0 0 [11] 4 .Positive 2 with
  | .ok (s, _) => s
  | .error _ => c9S0

/-- ... and feedback rated 0 (unrated), sentiment Negative. -/
def c9S2 : FeedbackState :=
  match submitFeedback c9S1 0 [12] 0 .Negative 3 with
  | .ok (s, _) => s
  | .error _ => c9S1

/-- Owner 1 creates feedback box 0 with `allowRatings = false`. -/
def c10Box : FeedbackState :=
  match createBox emptyFeedbackState 1 "B" "" .General false true 1 with
  | .ok (s, _) => s
  | .error _ => emptyFeedbackState

/-- ... and an anonymous submitter sends feedback with rating argument 7. -/
def c10Submitted : FeedbackState :=
  match submitFeedback c10Box 0 [11] 7 .Neutral 2 with
  | .ok (s, _) => s
  | .error _ => c10Box

/-- The stored box record behind `c10Box` (global id 0, owner 1, ratings
disallowed). -/
def c10BoxRec : FeedbackBox :=
  { id := 0, owner := 1, title := "B", description := "",
    category := .General, isActive := true, createdAt := 1, closedAt := 0,
    submissionCount := 0, allowRatings := false, allowSentiment := true }

/-- Slot 0 after owner 1 deletes task 0 of `afterCreates 1000`. -/
def c5DeletedTask : Task :=
  { mkT 0 with encryptedDescription := [], owner := 0 }

/-- Owner 1's stats after deleting task 0 of `afterCreates 1000`: only
`totalStorage` and `todoTasks` move; `totalTasks` stays 1000. -/
def c5Stats : UserStats :=
  { statsN 1000 with todoTasks := 999, totalStorage := 999 }

-- ============ Theorems ============

/-- Characterisation of owner 1's storage after `n` one-chunk creations
(for `n` within the quota every creation succeeds). -/
theorem afterCreates_spec :
    ∀ n, n ≤ MAX_TASKS_PER_USER →
      (afterCreates n).userTasks 1 = (List.range n).map mkT ∧
      (afterCreates n).userStats 1 = statsN n := by
  intro n
  induction n with
  | zero => intro _; exact ⟨rfl, rfl⟩
  | succ n ih =>
      intro hn
      have hn' : n ≤ MAX_TASKS_PER_USER := Nat.le_of_succ_le hn
      have hlt : n < MAX_TASKS_PER_USER := hn
      obtain ⟨h1, h2⟩ := ih hn'
      have hcr : createTask (afterCreates n) 1 [7] "t" .Low 0 "" [] "" 1 =
          .ok ({ afterCreates n with
                  userTasks := upd (afterCreates n).userTasks 1
                    ((List.range n).map mkT ++ [mkT n]),
                  userStats := upd (afterCreates n).userStats 1 (statsN (n + 1)),
                  tasksByCategory := upd (afterCreates n).tasksByCategory 1
                    ((afterCreates n).tasksByCategory 1),
                  tasksByTag := upd (afterCreates n).tasksByTag 1
                    ((afterCreates n).tasksByTag 1) }, n) := by
        rw [createTask, h1, h2]
        simp [statsN, mkT, MAX_TASKS_PER_USER] at hlt ⊢
        simp [MAX_CHUNKS_PER_TASK, Nat.not_le_of_lt hlt]
      constructor
      · show (stepCreate (afterCreates n)).userTasks 1 = _
        rw [stepCreate, hcr]
        simp [upd, List.range_succ]
      · show (stepCreate (afterCreates n)).userStats 1 = _
        rw [stepCreate, hcr]
        simp [upd]

/-- C1 (code_bug evaluation): owner 1 creates one task and deletes it;
`deleteTask` decrements the status counters but never `totalTasks`, so the
stats end with `totalTasks = 1` while
`todoTasks + inProgressTasks + completedTasks = 0` and no live record
remains — the claimed invariant
`todoTasks + inProgressTasks + completedTasks = totalTasks` fails. -/
theorem C1_total_counter_not_decremented :
    c1State.map (fun s =>
      ((getMyStats s 1).totalTasks,
       (getMyStats s 1).todoTasks + (getMyStats s 1).inProgressTasks +
         (getMyStats s 1).completedTasks,
       liveCount s 1)) = .ok (1, 0, 0) := by rfl

/-- C2 (code_bug evaluation): deleting an archived, favourited, live task
does decrement the status, archived and favorite counters and
`totalStorage`, does clear the ciphertext and does null the owner — but
leaves `totalTasks` at 1, contradicting the claim's "decrements the owner's
total record count". -/
theorem C2_delete_keeps_total :
    c2State.map (fun s =>
      ((getMyStats s 1).totalTasks, (getMyStats s 1).todoTasks,
       (getMyStats s 1).archivedTasks, (getMyStats s 1).favoriteTasks,
       (getMyStats s 1).totalStorage,
       ((s.userTasks 1).getD 0 defaultTask).owner,
       ((s.userTasks 1).getD 0 defaultTask).encryptedDescription)) =
      .ok (1, 0, 0, 0, 0, 0, []) := by rfl

/-- C3 (code_bug evaluation): after create(3 chunks), create(4 chunks),
delete(0), the deleted record keeps `chunkCount = 3` (not zeroed) though
`totalStorage = 4` still equals the live sum; a subsequent `updateTask` on
the deleted slot (which the source does not reject) moves `totalStorage` to
6 while the live chunk sum stays 4 — the claimed invariant fails. -/
theorem C3_storage_invariant_broken :
    (c3Deleted.map (fun s =>
        (((s.userTasks 1).getD 0 defaultTask).chunkCount,
         (getMyStats s 1).totalStorage, liveChunkSum s 1)) = .ok (3, 4, 4)) ∧
    (c3State.map (fun s => ((getMyStats s 1).totalStorage, liveChunkSum s 1)) =
        .ok (6, 4)) := by
  exact ⟨by rfl, by rfl⟩

/-- C4 (code_bug evaluation): on a sentinel-owned slot, a second
`deleteTask` succeeds and decrements `todoTasks` to 0 although one live
Todo task remains, and `updateTask` succeeds as well (the slot stays
sentinel-owned); only `updateTaskStatus` (like the other flag/share
operations) rejects with the "Task deleted" error. The claim that every
mutating operation fails on a deleted record and leaves state unchanged is
false for `updateTask` and `deleteTask`. -/
theorem C4_deleted_check_missing :
    ((c4Base.bind (fun s => deleteTask s 1 0)).map (fun s =>
        ((getMyStats s 1).todoTasks, liveCount s 1)) = .ok (0, 1)) ∧
    ((c4Base.bind (fun s => updateTask s 1 0 [9, 9] "x" .Low 0 "" [] "" 2)).map
        (fun s => ((s.userTasks 1).getD 0 defaultTask).owner) = .ok 0) ∧
    (c4Base.bind (fun s => updateTaskStatus s 1 0 .Completed 2) =
        .error "Task deleted") := by
  exact ⟨by rfl, by rfl, by rfl⟩

end SecretFeedback

namespace SecretFeedback

/-- Computation rule for `Except.bind` on a success value. -/
theorem except_bind_ok {ε α β : Type} (a : α) (f : α → Except ε β) :
    (Except.ok a : Except ε α).bind f = f a := rfl

/-- Computation rule for `Except.map` on a success value. -/
theorem except_map_ok {ε α β : Type} (f : α → β) (a : α) :
    Except.map f (Except.ok a : Except ε α) = .ok (f a) := rfl

/-- Head/tail decomposition of owner 1's task list after 1000 creations. -/
theorem range1000_map_mkT :
    (List.range 1000).map mkT =
      mkT 0 :: (List.range 999).map (fun i => mkT (i + 1)) := by
  rw [List.range_succ_eq_map]
  simp [Function.comp_def]

/-- Reduction of `deleteTask` on slot 0 of `afterCreates 1000`. -/
theorem c5_delete_eq :
    deleteTask (afterCreates 1000) 1 0 =
      .ok { afterCreates 1000 with
              userTasks := upd (afterCreates 1000).userTasks 1
                (c5DeletedTask :: (List.range 999).map (fun i => mkT (i + 1))),
              userStats := upd (afterCreates 1000).userStats 1 c5Stats } := by
  obtain ⟨h1, h2⟩ := afterCreates_spec 1000 (Nat.le_refl _)
  rw [deleteTask, h1, h2, range1000_map_mkT]
  simp [decStatusCounter, mkT, statsN, c5DeletedTask, c5Stats]

/-- C5 (code_bug evaluation): owner 1 creates 1000 tasks and deletes one,
leaving 999 live records; `createTask` still reverts with the quota error
because the quota is checked against `totalTasks`, which `deleteTask` never
decrements — contradicting the claim that the quota counts live records and
that deletion frees quota. -/
theorem C5_quota_counts_deleted_records :
    ((deleteTask (afterCreates 1000) 1 0).bind (fun s =>
        (createTask s 1 [7] "t" .Low 0 "" [] "" 2).map (fun p => p.2)) =
      .error "Max tasks reached") ∧
    ((deleteTask (afterCreates 1000) 1 0).map (fun s => liveCount s 1) =
      .ok 999) := by
  rw [c5_delete_eq]
  constructor
  · rw [except_bind_ok, createTask]
    simp [upd, c5Stats, statsN, MAX_TASKS_PER_USER, MAX_CHUNKS_PER_TASK,
      Except.map]
  · rw [except_map_ok]
    have hall : ((List.range 999).map (fun i => mkT (i + 1))).filter
        (fun t => t.owner != 0) = (List.range 999).map (fun i => mkT (i + 1)) := by
      rw [List.filter_eq_self]
      intro a ha
      obtain ⟨i, _, rfl⟩ := List.mem_map.mp ha
      rfl
    simp [liveCount, upd, c5DeletedTask, hall]

end SecretFeedback

namespace SecretFeedback

/-- Reading the map update back at the written key. -/
theorem upd_same {α β : Type} [DecidableEq α] (m : α → β) (a : α) (v : β) :
    upd m a v a = v := by
  simp [upd]

/-- Each step of the tag-indexing fold only appends, so membership of the
new id in a bucket is preserved by the remaining steps. -/
theorem foldTag_preserve :
    ∀ (ts : List String) (m : String → List Nat) (tid : Nat) (tg : String),
      tid ∈ m tg →
      tid ∈ (ts.foldl (fun m tg => upd m tg (m tg ++ [tid])) m) tg := by
  intro ts
  induction ts with
  | nil => intro m tid tg h; exact h
  | cons t ts ih =>
      intro m tid tg h
      apply ih
      by_cases htg : tg = t
      · subst htg; simp [upd]
      · simpa [upd, htg] using h

/-- After the tag-indexing fold, the new id is in the bucket of every tag
of the list. -/
theorem foldTag_mem :
    ∀ (ts : List String) (m : String → List Nat) (tid : Nat) (tg : String),
      tg ∈ ts →
      tid ∈ (ts.foldl (fun m tg => upd m tg (m tg ++ [tid])) m) tg := by
  intro ts
  induction ts with
  | nil => intro _ _ _ h; cases h
  | cons t ts ih =>
      intro m tid tg h
      rcases List.mem_cons.mp h with h | h
      · subst h
        rw [List.foldl_cons]
        apply foldTag_preserve
        simp [upd]
      · exact ih _ _ _ h

/-- `getD` of a mapped list, below the length. -/
theorem getD_map_of_lt {α β : Type} (f : α → β) (l : List α) (i : Nat)
    (da : α) (db : β) (h : i < l.length) :
    (l.map f).getD i db = f (l.getD i da) := by
  induction l generalizing i with
  | nil => cases h
  | cons a l ih =>
      cases i with
      | zero => rfl
      | succ n =>
          simp only [List.map_cons, List.getD_cons_succ]
          exact ih n (Nat.lt_of_succ_lt_succ h)

/-- C6 (counterexample): owner 1 creates a task with category `"cat1"` and
tag `"x"`, then updates it to category `"cat2"` and tag `"y"`.  The update
succeeds and rewrites the record's public fields, but a lookup on the new
category or the new tag is empty — the record's id is not appended to any
bucket on update, contradicting the claim that after `updateTask` a lookup
on the new category or tag includes the record's id. -/
theorem C6_new_category_not_indexed :
    getTasksByCategory c6S2 1 "cat2" = [] ∧ getTasksByTag c6S2 1 "y" = [] ∧
    ((c6S2.userTasks 1).getD 0 defaultTask).category = "cat2" ∧
    ((c6S2.userTasks 1).getD 0 defaultTask).tags = ["y"] := by
  exact ⟨rfl, rfl, rfl, rfl⟩

/-- C6 (amended, proved): the secondary indices are maintained on create
only.  A successful `createTask` appends the new id to the owner's bucket
for the (non-empty) category and to the bucket of every tag; a successful
`updateTask` leaves both index mappings entirely unchanged, so lookups on
the new category or tags see the id only if it was indexed at creation. -/
theorem C6_indices_maintained_on_create_only :
    (∀ (s : TasksState) (sender : Nat) (chunks : List Nat) (title : String)
       (prio : TaskPriority) (due : Nat) (cat : String) (tags : List String)
       (color : String) (now : Nat) (s' : TasksState) (tid : Nat),
       createTask s sender chunks title prio due cat tags color now = .ok (s', tid) →
       (cat ≠ "" →
         getTasksByCategory s' sender cat = getTasksByCategory s sender cat ++ [tid]) ∧
       (∀ tg, tg ∈ tags → tid ∈ getTasksByTag s' sender tg)) ∧
    (∀ (s : TasksState) (sender tid : Nat) (chunks : List Nat) (title : String)
       (prio : TaskPriority) (due : Nat) (cat : String) (tags : List String)
       (color : String) (now : Nat) (s' : TasksState),
       updateTask s sender tid chunks title prio due cat tags color now = .ok s' →
       s'.tasksByCategory = s.tasksByCategory ∧ s'.tasksByTag = s.tasksByTag) := by
  constructor
  · intro s sender chunks title prio due cat tags color now s' tid hop
    simp only [createTask] at hop
    split_ifs at hop with hA hB hC hD hE
    · rw [Except.ok.injEq, Prod.mk.injEq] at hop
      obtain ⟨hs, ht⟩ := hop
      subst hs; subst ht
      constructor
      · intro hcat; exact absurd hE hcat
      · intro tg htg
        simp only [getTasksByTag, upd_same]
        exact foldTag_mem tags _ _ tg htg
    · rw [Except.ok.injEq, Prod.mk.injEq] at hop
      obtain ⟨hs, ht⟩ := hop
      subst hs; subst ht
      constructor
      · intro _
        simp only [getTasksByCategory, upd_same]
      · intro tg htg
        simp only [getTasksByTag, upd_same]
        exact foldTag_mem tags _ _ tg htg
  · intro s sender tid chunks title prio due cat tags color now s' hop
    simp only [updateTask] at hop
    split_ifs at hop with hA hB hC hD hE
    rw [Except.ok.injEq] at hop
    subst hop
    exact ⟨rfl, rfl⟩

/-- C6 (witness): the amended statement applied to the concrete creation
behind `c6S1` and the concrete update behind `c6S2`. -/
theorem C6_indices_maintained_on_create_only_w :
    (getTasksByCategory c6S1 1 "cat1" =
        getTasksByCategory emptyTasksState 1 "cat1" ++ [0] ∧
      0 ∈ getTasksByTag c6S1 1 "x") ∧
    (c6S2.tasksByCategory = c6S1.tasksByCategory ∧
      c6S2.tasksByTag = c6S1.tasksByTag) := by
  refine ⟨?_, ?_⟩
  · have h := C6_indices_maintained_on_create_only.1 emptyTasksState 1 [1] "a"
      .Low 0 "cat1" ["x"] "" 1 c6S1 0 rfl
    exact ⟨h.1 (by decide), h.2 "x" (by simp)⟩
  · exact C6_indices_maintained_on_create_only.2 c6S1 1 0 [1] "a" .Low 0
      "cat2" ["y"] "" 2 c6S2 rfl

/-- C7 (counterexample): owner 1 shares task 0 with principal 2 twice; the
second grant succeeds and leaves principal 2's shared-with list and the
`getSharedTasks` result with two entries instead of one, so the second call
does not leave the store in the same observable state as a single call. -/
theorem C7_second_share_adds_entry :
    (c7S2.sharedWithMe 2).length = 1 ∧ (getSharedTasks c7S2 2).length = 1 ∧
    (c7S3.sharedWithMe 2).length = 2 ∧ (getSharedTasks c7S3 2).length = 2 := by
  exact ⟨rfl, rfl, rfl, rfl⟩

/-- C7 (amended, proved): `shareTask` is not idempotent — every successful
call appends one `(owner, taskId)` reference to the grantee's shared-with
list, so a repeated identical grant adds a duplicate entry there and one
more entry to the `getSharedTasks` result (only the chunk-level FHE
permission grant, which is outside contract storage, is harmlessly
repeatable). -/
theorem C7_share_appends_reference :
    ∀ (s : TasksState) (sender taskId recipient : Nat) (s' : TasksState),
      shareTask s sender taskId recipient = .ok s' →
      s'.sharedWithMe recipient = s.sharedWithMe recipient ++ [⟨sender, taskId⟩] ∧
      (getSharedTasks s' recipient).length = (s.sharedWithMe recipient).length + 1 := by
  intro s sender taskId recipient s' hop
  simp only [shareTask] at hop
  split_ifs at hop with hA hB hC hD
  rw [Except.ok.injEq] at hop
  subst hop
  constructor
  · simp [upd]
  · simp [getSharedTasks, upd]

/-- C7 (witness): the amended statement applied to the first concrete grant
of task 0 to principal 2. -/
theorem C7_share_appends_reference_w :
    c7S2.sharedWithMe 2 = c7S1.sharedWithMe 2 ++ [⟨1, 0⟩] ∧
    (getSharedTasks c7S2 2).length = (c7S1.sharedWithMe 2).length + 1 :=
  C7_share_appends_reference c7S1 1 0 2 c7S2 rfl

/-- C8 (counterexample): after owner 1 deletes the task shared with
principal 2, `getSharedTasks` still returns a one-element array whose only
entry is the all-zero placeholder metadata (owner = the null sentinel).
The stale grant therefore still contributes a visible (default-valued)
entry, contradicting the claim that deleted records contribute no visible
entry to the result. -/
theorem C8_deleted_share_leaves_placeholder :
    getSharedTasks c8S 2 = [defaultTaskMetadata] ∧
    ((c8S.userTasks 1).getD 0 defaultTask).owner = 0 := by
  exact ⟨rfl, rfl⟩

/-- C8 (amended, proved): `getSharedTasks` always returns exactly one entry
per reference in the grantee's shared-with list; a reference whose
underlying record is sentinel-owned (deleted) is not populated and its slot
stays the all-zero default metadata, which the caller must filter. -/
theorem C8_shared_query_placeholder :
    ∀ (s : TasksState) (grantee i : Nat),
      i < (s.sharedWithMe grantee).length →
      (getSharedTasks s grantee).length = (s.sharedWithMe grantee).length ∧
      (((s.userTasks ((s.sharedWithMe grantee).getD i ⟨0, 0⟩).owner).getD
          ((s.sharedWithMe grantee).getD i ⟨0, 0⟩).taskId defaultTask).owner = 0 →
        (getSharedTasks s grantee).getD i defaultTaskMetadata = defaultTaskMetadata) := by
  intro s grantee i h
  constructor
  · simp [getSharedTasks]
  · intro hdel
    rw [getSharedTasks, getD_map_of_lt _ _ i ⟨0, 0⟩ _ h]
    exact if_neg (fun hc => hc hdel)

/-- C8 (witness): the amended statement applied to the concrete state
`c8S`, in which the single shared task has been deleted. -/
theorem C8_shared_query_placeholder_w :
    (getSharedTasks c8S 2).length = (c8S.sharedWithMe 2).length ∧
    (getSharedTasks c8S 2).getD 0 defaultTaskMetadata = defaultTaskMetadata :=
  ⟨(C8_shared_query_placeholder c8S 2 0 (by decide)).1,
   (C8_shared_query_placeholder c8S 2 0 (by decide)).2 (by rfl)⟩

end SecretFeedback

namespace SecretFeedback

/-- Reading the map update at a different key. -/
theorem upd_other {α β : Type} [DecidableEq α] (m : α → β) (a : α) (v : β)
    (x : α) (h : x ≠ a) : upd m a v x = m x := by
  simp [upd, h]

/-- Extending the scan range by one slot appends that slot's entry to the
live list when it is not deleted. -/
theorem liveFeedback_succ (s : FeedbackState) (gid n : Nat) :
    liveFeedback s gid (n + 1) =
      liveFeedback s gid n ++
        (if 0 < (s.boxFeedback gid n).submittedAt then [s.boxFeedback gid n]
         else []) := by
  simp only [liveFeedback, List.range_succ, List.map_append, List.map_cons,
    List.map_nil, List.filter_append, List.append_cancel_left_eq]
  by_cases hsub : 0 < (s.boxFeedback gid n).submittedAt
  · simp [List.filter_cons, hsub]
  · simp [List.filter_cons, hsub]

/-- The source's single accumulation loop computes, component by component,
the same values as independent filters over the live entries. -/
theorem statsLoop_spec (s : FeedbackState) (gid : Nat) :
    ∀ n, statsLoop s gid n =
      { totalRating := (((liveFeedback s gid n).filter
            (fun fb => 0 < fb.rating)).map Feedback.rating).sum,
        ratedCount := ((liveFeedback s gid n).filter
            (fun fb => 0 < fb.rating)).length,
        positive := ((liveFeedback s gid n).filter
            (fun fb => fb.sentiment = Sentiment.Positive)).length,
        neutral := ((liveFeedback s gid n).filter
            (fun fb => fb.sentiment = Sentiment.Neutral)).length,
        negative := ((liveFeedback s gid n).filter
            (fun fb => fb.sentiment = Sentiment.Negative)).length,
        unread := ((liveFeedback s gid n).filter (fun fb => !fb.isRead)).length,
        activeCount := (liveFeedback s gid n).length } := by
  intro n
  induction n with
  | zero => rfl
  | succ n ih =>
      rw [statsLoop, ih, liveFeedback_succ]
      by_cases hsub : 0 < (s.boxFeedback gid n).submittedAt
      · by_cases hr : 0 < (s.boxFeedback gid n).rating <;>
          cases hsent : (s.boxFeedback gid n).sentiment <;>
          cases hread : (s.boxFeedback gid n).isRead <;>
          simp [statsStep, hsub, hr, hsent, hread, List.filter_cons,
            List.filter_append, List.map_append, List.sum_append,
            List.length_append]
      · simp [statsStep, hsub]

/-- C9 (proved): `getBoxStats` is a full scan over the box's non-deleted
feedback slots — `totalSubmissions` counts the live entries, `unreadCount`
those not yet read, the three sentiment counters tally each sentiment, and
`avgRating` is `floor(sum of positive ratings * 100 / ratedCount)` (0 when
no rated entry exists); and on Scenario B (ratings allowed, one submission
rated 4/Positive and one rated 0/Negative) it returns `totalSubmissions=2`,
`unreadCount=2`, `avgRating=400`, `positiveCount=1`, `negativeCount=1`,
`neutralCount=0`. -/
theorem C9_box_stats_full_scan :
    (∀ (s : FeedbackState) (gid : Nat),
      getBoxStats s gid =
        { totalSubmissions := (liveFeedback s gid (s.feedbackCountPerBox gid)).length,
          unreadCount := ((liveFeedback s gid (s.feedbackCountPerBox gid)).filter
              (fun fb => !fb.isRead)).length,
          avgRating :=
            (if 0 < ((liveFeedback s gid (s.feedbackCountPerBox gid)).filter
                  (fun fb => 0 < fb.rating)).length then
              ((((liveFeedback s gid (s.feedbackCountPerBox gid)).filter
                    (fun fb => 0 < fb.rating)).map Feedback.rating).sum * 100) /
                ((liveFeedback s gid (s.feedbackCountPerBox gid)).filter
                    (fun fb => 0 < fb.rating)).length
             else 0),
          positiveCount := ((liveFeedback s gid (s.feedbackCountPerBox gid)).filter
              (fun fb => fb.sentiment = Sentiment.Positive)).length,
          neutralCount := ((liveFeedback s gid (s.feedbackCountPerBox gid)).filter
              (fun fb => fb.sentiment = Sentiment.Neutral)).length,
          negativeCount := ((liveFeedback s gid (s.feedbackCountPerBox gid)).filter
              (fun fb => fb.sentiment = Sentiment.Negative)).length }) ∧
    getBoxStats c9S2 0 =
      { totalSubmissions := 2, unreadCount := 2, avgRating := 400,
        positiveCount := 1, neutralCount := 0, negativeCount := 1 } := by
  constructor
  · intro s gid
    rw [getBoxStats, statsLoop_spec]
  · rfl

end SecretFeedback

namespace SecretFeedback

/-- A record whose rating is at most 5 written through the double map
update keeps every stored rating at most 5. -/
theorem upd_rating_le {m : Nat → Nat → Feedback} {gid fid : Nat} {e : Feedback}
    (hm : ∀ g f, (m g f).rating ≤ 5) (he : e.rating ≤ 5) :
    ∀ g f, ((upd m gid (upd (m gid) fid e)) g f).rating ≤ 5 := by
  intro g f
  by_cases hg : g = gid
  · subst hg
    rw [upd_same]
    by_cases hf : f = fid
    · subst hf
      rw [upd_same]
      exact he
    · rw [upd_other _ _ _ _ hf]
      exact hm g f
  · rw [upd_other _ _ _ _ hg]
    exact hm g f

/-- Inversion of a successful `submitFeedback`: the new state stores one
new entry at the next slot of the target box, and that entry's rating is at
most 5 (either the validated argument or the forced 0). -/
theorem submitFeedback_inv {s : FeedbackState} {gid : Nat} {chunks : List Nat}
    {rating : Nat} {sentiment : Sentiment} {now : Nat} {s' : FeedbackState}
    {fid : Nat}
    (hop : submitFeedback s gid chunks rating sentiment now = .ok (s', fid)) :
    ∃ e : Feedback, e.rating ≤ 5 ∧
      s'.boxFeedback = upd s.boxFeedback gid (upd (s.boxFeedback gid) fid e) := by
  simp only [submitFeedback] at hop
  rcases hfind : (s.ownerBoxes (s.boxOwners gid)).find? (fun b => b.id == gid) with
    _ | box
  · rw [hfind] at hop
    split_ifs at hop
  · rw [hfind] at hop
    simp only [] at hop
    split_ifs at hop with h1 h2 h3 h4 h5
    · rw [Except.ok.injEq, Prod.mk.injEq] at hop
      obtain ⟨hs, hf⟩ := hop
      subst hs; subst hf
      refine ⟨_, ?_, rfl⟩
      exact h5
    · rw [Except.ok.injEq, Prod.mk.injEq] at hop
      obtain ⟨hs, hf⟩ := hop
      subst hs; subst hf
      refine ⟨_, ?_, rfl⟩
      exact Nat.zero_le 5

/-- Inversion of a successful `markAsRead`: only `isRead` of the addressed
entry changes. -/
theorem markAsRead_inv {s : FeedbackState} {sender gid fid : Nat}
    {s' : FeedbackState} (hop : markAsRead s sender gid fid = .ok s') :
    s'.boxFeedback = upd s.boxFeedback gid (upd (s.boxFeedback gid) fid
      { s.boxFeedback gid fid with isRead := true }) := by
  simp only [markAsRead] at hop
  split_ifs at hop
  rw [Except.ok.injEq] at hop
  subst hop
  rfl

/-- Inversion of a successful `deleteFeedback`: the addressed entry keeps
its rating (only ciphertext, `chunkCount` and `submittedAt` are zeroed). -/
theorem deleteFeedback_inv {s : FeedbackState} {sender gid fid : Nat}
    {s' : FeedbackState} (hop : deleteFeedback s sender gid fid = .ok s') :
    s'.boxFeedback = upd s.boxFeedback gid (upd (s.boxFeedback gid) fid
      { s.boxFeedback gid fid with encryptedContent := [], chunkCount := 0,
                                   submittedAt := 0 }) := by
  simp only [deleteFeedback] at hop
  split_ifs at hop
  rw [Except.ok.injEq] at hop
  subst hop
  rfl

/-- Inversion of a successful `createBox`: the feedback storage mapping is
untouched. -/
theorem createBox_boxFeedback {s : FeedbackState} {sender : Nat}
    {title description : String} {category : BoxCategory} {ar asn : Bool}
    {now : Nat} {s' : FeedbackState} {bid : Nat}
    (hop : createBox s sender title description category ar asn now = .ok (s', bid)) :
    s'.boxFeedback = s.boxFeedback := by
  simp only [createBox] at hop
  split_ifs at hop
  rw [Except.ok.injEq, Prod.mk.injEq] at hop
  obtain ⟨hs, _⟩ := hop
  subst hs
  rfl

/-- Inversion of a successful `closeBox`: the feedback storage mapping is
untouched. -/
theorem closeBox_boxFeedback {s : FeedbackState} {sender boxId now : Nat}
    {s' : FeedbackState} (hop : closeBox s sender boxId now = .ok s') :
    s'.boxFeedback = s.boxFeedback := by
  simp only [closeBox] at hop
  split_ifs at hop
  rw [Except.ok.injEq] at hop
  subst hop
  rfl

/-- Inversion of a successful `reopenBox`: the feedback storage mapping is
untouched. -/
theorem reopenBox_boxFeedback {s : FeedbackState} {sender boxId : Nat}
    {s' : FeedbackState} (hop : reopenBox s sender boxId = .ok s') :
    s'.boxFeedback = s.boxFeedback := by
  simp only [reopenBox] at hop
  split_ifs at hop
  rw [Except.ok.injEq] at hop
  subst hop
  rfl

/-- Inversion of a successful `updateBox`: the feedback storage mapping is
untouched. -/
theorem updateBox_boxFeedback {s : FeedbackState} {sender boxId : Nat}
    {title description : String} {s' : FeedbackState}
    (hop : updateBox s sender boxId title description = .ok s') :
    s'.boxFeedback = s.boxFeedback := by
  simp only [updateBox] at hop
  split_ifs at hop <;> (rw [Except.ok.injEq] at hop; subst hop; rfl)

/-- C10 (proved): in every state reachable by the contract's operations,
every stored feedback entry has rating at most 5; and when the target box
was created with `allowRatings = false`, a successful `submitFeedback`
stores rating 0 regardless of the rating argument supplied. -/
theorem C10_rating_at_most_five :
    (∀ s : FeedbackState, FReach s →
      ∀ gid fid, (s.boxFeedback gid fid).rating ≤ 5) ∧
    (∀ (s : FeedbackState) (gid : Nat) (chunks : List Nat) (rating : Nat)
       (sentiment : Sentiment) (now : Nat) (s' : FeedbackState) (fid : Nat)
       (b : FeedbackBox),
       (s.ownerBoxes (s.boxOwners gid)).find? (fun b => b.id == gid) = some b →
       b.allowRatings = false →
       submitFeedback s gid chunks rating sentiment now = .ok (s', fid) →
       (s'.boxFeedback gid fid).rating = 0) := by
  constructor
  · intro s hreach
    induction hreach with
    | init => intro gid fid; exact Nat.zero_le 5
    | cbox h hop ih => intro gid fid; rw [createBox_boxFeedback hop]; exact ih gid fid
    | cclose h hop ih => intro gid fid; rw [closeBox_boxFeedback hop]; exact ih gid fid
    | creopen h hop ih => intro gid fid; rw [reopenBox_boxFeedback hop]; exact ih gid fid
    | cupdate h hop ih => intro gid fid; rw [updateBox_boxFeedback hop]; exact ih gid fid
    | submit h hop ih =>
        obtain ⟨e, he, hbf⟩ := submitFeedback_inv hop
        intro gid fid
        rw [hbf]
        exact upd_rating_le ih he gid fid
    | mread h hop ih =>
        intro gid fid
        rw [markAsRead_inv hop]
        refine upd_rating_le ih ?_ gid fid
        exact ih _ _
    | fdelete h hop ih =>
        intro gid fid
        rw [deleteFeedback_inv hop]
        refine upd_rating_le ih ?_ gid fid
        exact ih _ _
  · intro s gid chunks rating sentiment now s' fid b hfind hfalse hop
    simp only [submitFeedback] at hop
    rw [hfind] at hop
    simp only [] at hop
    split_ifs at hop with h1 h2 h3 h4 h5
    · rw [hfalse] at h4
      exact absurd h4 (by simp)
    · rw [Except.ok.injEq, Prod.mk.injEq] at hop
      obtain ⟨hs, hf⟩ := hop
      subst hs; subst hf
      simp [upd_same]

/-- C10 (witness): the invariant applied to the concrete reachable state
`c10Submitted` (box 0 created with ratings disallowed, then a submission
with rating argument 7), and the forced-zero behaviour at that submission. -/
theorem C10_rating_at_most_five_w :
    (c10Submitted.boxFeedback 0 0).rating ≤ 5 ∧
    (c10Submitted.boxFeedback 0 0).rating = 0 := by
  constructor
  · exact C10_rating_at_most_five.1 c10Submitted
      (@FReach.submit c10Box c10Submitted 0 [11] 7 .Neutral 2 0
        (@FReach.cbox emptyFeedbackState c10Box 1 "B" "" .General false true 1 0
          FReach.init rfl) rfl) 0 0
  · exact C10_rating_at_most_five.2 c10Box 0 [11] 7 .Neutral 2 c10Submitted 0
      c10BoxRec rfl rfl rfl

end SecretFeedback
